import Mathlib

/-!
# Verification of `midjourney_image_scraper.py`

A shallow embedding of the scraper's core logic.  Python strings are
modelled as `List Char`; the filesystem (the download folder) as an
association list from filename to byte content; HTTP transport and HTML
parsing are external capabilities, modelled as oracles supplied to the
functions that use them.  Every branch of the embedded definitions is
translated from the corresponding line of the source file.
-/

namespace Scraper

/-- Python strings, modelled as lists of characters. -/
abbrev Str := List Char

/-! ## Python string primitives

`pySplit sep s` models Python's `s.split(sep)` for a non-empty separator:
non-overlapping occurrences of `sep` are located scanning left to right and
the pieces between them are returned (with `[s]` for an absent separator,
and `[s]` when `sep` is empty, a case Python rejects and the scraper never
exercises: the marker `"fit=cover/"` is non-empty).
`containsSub sep s` models Python's `sep in s`. -/

/-- Python's substring test `sep in s`. -/
def containsSub (sep : Str) : Str → Bool
  | [] => sep.isEmpty
  | c :: rest => sep.isPrefixOf (c :: rest) || containsSub sep rest

def pySplit (sep : Str) : Str → List Str
  | [] => [[]]
  | c :: rest =>
    if !sep.isEmpty && sep.isPrefixOf (c :: rest) then
      [] :: pySplit sep (rest.drop (sep.length - 1))
    else
      match pySplit sep rest with
      | [] => [[c]]
      | h :: t => (c :: h) :: t
termination_by s => s.length
decreasing_by
  · simp only [List.length_cons]
    have := List.length_drop (sep.length - 1) rest
    omega
  · simp

/-- The part of `s` strictly after the first occurrence of `sep`
(`s` itself unchanged has no meaning here: the result is `[]` when `sep`
does not occur). -/
def afterFirst (sep : Str) : Str → Str
  | [] => []
  | c :: rest =>
    if sep.isPrefixOf (c :: rest) then (c :: rest).drop sep.length
    else afterFirst sep rest

/-- The part of `s` strictly before the first occurrence of `sep`
(all of `s` when `sep` does not occur). -/
def beforeFirst (sep : Str) : Str → Str
  | [] => []
  | c :: rest =>
    if sep.isPrefixOf (c :: rest) then []
    else c :: beforeFirst sep rest

/-- The URL-transform marker `"fit=cover/"` (source line 292). -/
def fitCoverMarker : Str := "fit=cover/".toList

/-- Source lines 292–298: resolution of the full-resolution URL from a
thumbnail `src`.  `if 'fit=cover/' in thumbnail_src:
full_res_url = thumbnail_src.split('fit=cover/')[1]` else the thumbnail
URL is used directly.  Python's `[1]` is total here because containment
guarantees at least two split pieces; `getD` supplies the (unreachable)
default. -/
def resolveFullRes (src : Str) : Str :=
  if containsSub fitCoverMarker src then
    (pySplit fitCoverMarker src).getD 1 []
  else
    src

theorem containsSub_cons_false {sep : Str} {c : Char} {rest : Str}
    (h : containsSub sep (c :: rest) = false) :
    sep.isPrefixOf (c :: rest) = false ∧ containsSub sep rest = false := by
  simpa [containsSub] using h

theorem pySplit_of_not_containsSub (sep : Str) :
    ∀ s : Str, containsSub sep s = false → pySplit sep s = [s] := by
  intro s h
  induction s with
  | nil => simp [pySplit]
  | cons c rest ih =>
    obtain ⟨h1, h2⟩ := containsSub_cons_false h
    rw [pySplit, if_neg (by simp [h1]), ih h2]

theorem pySplit_of_containsSub (sep : Str) (hsep : sep ≠ []) :
    ∀ s : Str, containsSub sep s = true →
      pySplit sep s = beforeFirst sep s :: pySplit sep (afterFirst sep s) := by
  intro s h
  induction s with
  | nil =>
    exfalso
    simp [containsSub, List.isEmpty_iff, hsep] at h
  | cons c rest ih =>
    by_cases hp : sep.isPrefixOf (c :: rest) = true
    · obtain ⟨k, hk⟩ : ∃ k, sep.length = k + 1 := by
        cases sep with
        | nil => exact absurd rfl hsep
        | cons a t => exact ⟨t.length, by simp⟩
      rw [pySplit, if_pos (by simp [hp, List.isEmpty_iff, hsep]),
        beforeFirst, if_pos hp, afterFirst, if_pos hp]
      simp [hk]
    · have hp' : sep.isPrefixOf (c :: rest) = false := by
        exact Bool.eq_false_iff.mpr (fun hc => hp hc)
      have h2 : containsSub sep rest = true := by
        simpa [containsSub, hp'] using h
      rw [pySplit, if_neg (by simp [hp']), ih h2,
        beforeFirst, if_neg (by simp [hp']), afterFirst, if_neg (by simp [hp'])]

/-- C2, counterexample: the claim reads every marker-containing thumbnail URL
as resolving to the substring after the marker, but for a URL in which the
marker occurs twice the code's split-and-take-index-1 yields only the segment
between the first and second occurrences.  Here the URL
"fit=cover/afit=cover/b" resolves to "a", not to "afit=cover/b". -/
theorem c2_resolve_counterexample :
    containsSub fitCoverMarker ("fit=cover/afit=cover/b".toList) = true ∧
    resolveFullRes ("fit=cover/afit=cover/b".toList) ≠
      afterFirst fitCoverMarker ("fit=cover/afit=cover/b".toList) := by
  refine ⟨by decide, ?_⟩
  have h1 : containsSub fitCoverMarker ("fit=cover/afit=cover/b".toList) = true := by
    decide
  have h2 : containsSub fitCoverMarker
      (afterFirst fitCoverMarker ("fit=cover/afit=cover/b".toList)) = true := by
    decide
  rw [resolveFullRes, if_pos h1,
    pySplit_of_containsSub _ (by decide) _ h1,
    pySplit_of_containsSub _ (by decide) _ h2]
  simp only [List.getD, List.getElem?_cons_succ, List.getElem?_cons_zero,
    Option.getD_some]
  decide

/-- C2 (amended): a thumbnail URL containing the transform marker
"fit=cover/" exactly once resolves to the substring after the marker (with
several occurrences the code returns only the segment between the first and
second occurrences); a thumbnail URL without the marker resolves to itself
unchanged. -/
theorem c2_resolve_marker (src : Str) :
    (containsSub fitCoverMarker src = true →
      containsSub fitCoverMarker (afterFirst fitCoverMarker src) = false →
      resolveFullRes src = afterFirst fitCoverMarker src) ∧
    (containsSub fitCoverMarker src = false → resolveFullRes src = src) := by
  constructor
  · intro h1 h2
    rw [resolveFullRes, if_pos h1,
      pySplit_of_containsSub _ (by decide) _ h1,
      pySplit_of_not_containsSub _ _ h2]
    simp [List.getD]
  · intro h
    rw [resolveFullRes, if_neg (by simp [h])]

/-- C2, witness: the amended theorem applied to a one-marker URL and to a
marker-free URL. -/
theorem c2_resolve_marker_witness :
    resolveFullRes ("x/fit=cover/https://a/b.jpg".toList) =
      afterFirst fitCoverMarker ("x/fit=cover/https://a/b.jpg".toList) ∧
    resolveFullRes ("https://a/plain.jpg".toList) = "https://a/plain.jpg".toList :=
  ⟨(c2_resolve_marker _).1 (by decide) (by decide),
   (c2_resolve_marker _).2 (by decide)⟩

/-! ## URL parsing and filename derivation

Models of the Python standard-library pieces the scraper calls:
urllib.parse's scheme/netloc/path splitting (used by validate_url, line 45,
and for the path component at line 137), posix os.path.basename, and the
non-empty-extension test of os.path.splitext (line 144). -/

/-- Python str.lower, restricted to the per-character lowering the scraper
needs. -/
def pyLower (s : Str) : Str := s.map Char.toLower

/-- The characters urllib.parse accepts inside a URL scheme. -/
def validSchemeChar (c : Char) : Bool := c.isAlphanum || c == '+' || c == '-' || c == '.'

structure UrlParts where
  scheme : Str
  netloc : Str
  path : Str
deriving DecidableEq, Repr

/-- urllib.parse.urlsplit/urlparse restricted to scheme, netloc and path:
the scheme is the lowercased text before the first colon when that text
starts with a letter and uses only scheme characters; the netloc follows a
leading "//" and runs to the next "/", "?" or "#"; the path is the
remainder up to "?" or "#". -/
def splitUrl (u : Str) : UrlParts :=
  let pre := u.takeWhile (· != ':')
  let hasScheme :=
    decide (pre.length < u.length) &&
    (match pre with
     | [] => false
     | c :: _ => c.isAlpha && pre.all validSchemeChar)
  let scheme := if hasScheme then pyLower pre else []
  let r1 := if hasScheme then u.drop (pre.length + 1) else u
  let hasNetloc := decide (r1.take 2 = ['/', '/'])
  let netloc :=
    if hasNetloc then (r1.drop 2).takeWhile (fun c => c != '/' && c != '?' && c != '#')
    else []
  let r2 := if hasNetloc then (r1.drop 2).dropWhile (fun c => c != '/' && c != '?' && c != '#')
    else r1
  { scheme := scheme, netloc := netloc,
    path := r2.takeWhile (fun c => c != '?' && c != '#') }

/-- Source lines 42–48: a URL is valid when both scheme and netloc are
non-empty (Python truthiness of the two strings). -/
def validate_url (u : Str) : Bool :=
  !(splitUrl u).scheme.isEmpty && !(splitUrl u).netloc.isEmpty

/-- posix os.path.basename: the part after the last slash. -/
def basename (p : Str) : Str := (p.reverse.takeWhile (· != '/')).reverse

/-- Whether os.path.splitext would report a non-empty extension: some dot
after the leading-dot prefix. -/
def hasExtension (f : Str) : Bool := (f.dropWhile (· == '.')).any (· == '.')

/-- Source line 130: the accepted content-type markers. -/
def imageTypeMarkers : List Str :=
  ["image/".toList, "jpeg".toList, "jpg".toList, "png".toList, "webp".toList]

/-- Source line 130: the content type (already lowercased) is accepted when
any marker occurs in it. -/
def contentTypeOk (ct : Str) : Bool := imageTypeMarkers.any (fun m => containsSub m ct)

/-- Source lines 144–153: extension inferred from the content type when the
filename has none. -/
def inferExtension (ct : Str) : Str :=
  if containsSub "jpeg".toList ct || containsSub "jpg".toList ct then ".jpg".toList
  else if containsSub "png".toList ct then ".png".toList
  else if containsSub "webp".toList ct then ".webp".toList
  else ".jpg".toList

/-- Source line 140: the fallback filename built from Python's built-in
hash.  CPython randomizes string hashing per process (PYTHONHASHSEED), so
the hash is a parameter of the model: one run of the program corresponds to
one choice of h.  Python's % on a possibly negative hash with positive
modulus is Int.emod. -/
def fallbackFilename (h : Str → Int) (url : Str) : Str :=
  "image_".toList ++ (Int.toNat (Int.emod (h url) 100000)).repr.toList

/-- Source lines 136–155: the filename stored for a URL, given the
(lowercased) content type of the response. -/
def downloadFilename (h : Str → Int) (url ct : Str) : Str :=
  let f0 := basename (splitUrl url).path
  let f1 := if f0.isEmpty then fallbackFilename h url else f0
  if hasExtension f1 then f1 else f1 ++ inferExtension ct

/-! ## Filesystem, statistics, download -/

/-- File bodies as byte lists. -/
abbrev FileContent := List Nat

/-- The download folder: an association list from filename to content. -/
abbrev Fs := List (Str × FileContent)

def fsLookup (fs : Fs) (name : Str) : Option FileContent :=
  match fs with
  | [] => none
  | (n, c) :: rest => if n = name then some c else fsLookup rest name

def fsRemove (fs : Fs) (name : Str) : Fs :=
  fs.filter (fun e => !(decide (e.1 = name)))

/-- Writing a file replaces any previous file of the same name. -/
def fsWrite (fs : Fs) (name : Str) (content : FileContent) : Fs :=
  (name, content) :: fsRemove fs name

/-- The keys of the stats error map (source line 39 onward).  The http
constructor carries the status code of an http_<status> key. -/
inductive ErrKey where
  | invalid_url | timeout | connection_error | http (status : Nat)
  | invalid_content_type | empty_file | unexpected_download_error
  | invalid_html | no_images_found | processing_error
  | page_fetch_error | unexpected_page_error
deriving DecidableEq, Repr

/-- The defaultdict(int) of error counts. -/
abbrev ErrMap := List (ErrKey × Nat)

def bumpErr (m : ErrMap) (k : ErrKey) : ErrMap :=
  match m with
  | [] => [(k, 1)]
  | (k', n) :: rest => if k' = k then (k', n + 1) :: rest else (k', n) :: bumpErr rest k

def errCount (m : ErrMap) (k : ErrKey) : Nat :=
  match m with
  | [] => 0
  | (k', n) :: rest => if k' = k then n else errCount rest k

/-- The stats dictionary (source lines 32–40). -/
structure Stats where
  pages_attempted : Nat := 0
  pages_successful : Nat := 0
  images_found : Nat := 0
  images_downloaded : Nat := 0
  images_skipped : Nat := 0
  images_failed : Nat := 0
  errors : ErrMap := []
deriving DecidableEq, Repr

def initStats : Stats := {}

/-- An image-download failure: images_failed += 1 plus the error key
(the pattern at source lines 102–103 and analogues). -/
def failStat (s : Stats) (k : ErrKey) : Stats :=
  { s with images_failed := s.images_failed + 1, errors := bumpErr s.errors k }

/-- An HTTP response to a streaming GET: status, raw content-type header
(headers.get with default ""), body bytes.  The advisory content-length
size checks at lines 168–175 only log, so the header is not modelled. -/
structure Response where
  status : Nat
  contentType : Str
  body : FileContent
deriving DecidableEq

/-- Outcome of requests.get on an asset URL. -/
inductive GetResult where
  | timeout
  | connError
  | ok (r : Response)

/-- The network as an oracle from URL to GET outcome. -/
abbrev Net := Str → GetResult

/-- The reason codes of failed downloads, one per return False site of
download_image. -/
inductive Reason where
  | invalid_url | timeout | connection_error | http (status : Nat)
  | invalid_content_type | empty_file
deriving DecidableEq, Repr

/-- The spec's DownloadOutcome, tagging which branch of download_image
produced the result. -/
inductive Outcome where
  | downloaded
  | skipped (size : Nat)
  | failed (r : Reason)
deriving DecidableEq, Repr

/-- Observable effects; httpGet records that a network request was issued
(source line 110). -/
inductive Ev where
  | httpGet (url : Str)
deriving DecidableEq

structure DlResult where
  ret : Bool
  outcome : Outcome
  fs : Fs
  stats : Stats
  events : List Ev
deriving DecidableEq

/-- Source lines 177–196: stream the body to disk, then delete the file and
fail when zero bytes were written, else count the download. -/
def finishDownload (url filename : Str) (body : FileContent) (fs : Fs) (stats : Stats) :
    DlResult :=
  let fs' := fsWrite fs filename body
  if body.length = 0 then
    ⟨false, .failed .empty_file, fsRemove fs' filename, failStat stats .empty_file,
      [.httpGet url]⟩
  else
    ⟨true, .downloaded, fs',
      { stats with images_downloaded := stats.images_downloaded + 1 }, [.httpGet url]⟩

/-- Source lines 96–202: download_image(url, folder).  The folder is the
Fs value; h is the per-run Python string hash; net the HTTP transport.
requests' raise_for_status raises exactly for statuses in [400, 600).
The final except-Exception branch (lines 198–202) has no reachable
counterpart here: the modelled filesystem operations do not throw. -/
def download_image (h : Str → Int) (net : Net) (url : Str) (fs : Fs) (stats : Stats) :
    DlResult :=
  if validate_url url = false then
    ⟨false, .failed .invalid_url, fs, failStat stats .invalid_url, []⟩
  else
    match net url with
    | .timeout => ⟨false, .failed .timeout, fs, failStat stats .timeout, [.httpGet url]⟩
    | .connError =>
      ⟨false, .failed .connection_error, fs, failStat stats .connection_error,
        [.httpGet url]⟩
    | .ok r =>
      if 400 ≤ r.status ∧ r.status < 600 then
        ⟨false, .failed (.http r.status), fs, failStat stats (.http r.status),
          [.httpGet url]⟩
      else
        let ct := pyLower r.contentType
        if contentTypeOk ct = false then
          ⟨false, .failed .invalid_content_type, fs,
            failStat stats .invalid_content_type, [.httpGet url]⟩
        else
          let filename := downloadFilename h url ct
          match fsLookup fs filename with
          | some content =>
            if 0 < content.length then
              ⟨true, .skipped content.length, fs,
                { stats with images_skipped := stats.images_skipped + 1 },
                [.httpGet url]⟩
            else
              finishDownload url filename r.body (fsRemove fs filename) stats
          | none => finishDownload url filename r.body fs stats

theorem fsLookup_fsRemove_self (fs : Fs) (n : Str) : fsLookup (fsRemove fs n) n = none := by
  induction fs with
  | nil => rfl
  | cons e rest ih =>
    by_cases he : e.1 = n
    · simpa [fsRemove, he] using ih
    · simpa [fsRemove, fsLookup, he] using ih

theorem fsLookup_fsRemove_ne (fs : Fs) {n p : Str} (h : p ≠ n) :
    fsLookup (fsRemove fs n) p = fsLookup fs p := by
  have hnp : n ≠ p := fun hc => h hc.symm
  induction fs with
  | nil => rfl
  | cons e rest ih =>
    by_cases he : e.1 = n
    · simpa [fsRemove, fsLookup, he, hnp] using ih
    · by_cases hp : e.1 = p
      · rw [fsRemove, List.filter_cons_of_pos (by simp [he])]
        simp [fsLookup, hp]
      · simpa [fsRemove, fsLookup, he, hp] using ih

theorem fsLookup_fsWrite_self (fs : Fs) (n : Str) (c : FileContent) :
    fsLookup (fsWrite fs n c) n = some c := by
  simp [fsWrite, fsLookup]

theorem fsLookup_fsWrite_ne (fs : Fs) {n p : Str} (c : FileContent) (h : p ≠ n) :
    fsLookup (fsWrite fs n c) p = fsLookup fs p := by
  have : n ≠ p := fun hc => h hc.symm
  simp [fsWrite, fsLookup, this, fsLookup_fsRemove_ne fs h]

/-- C3, counterexample: the claim places the file-existence check before the
GET so that a Skipped result performs no network request, but in the code
the GET (line 110) precedes the existence check (line 158).  Concretely,
with a nonzero file already stored under the target name, download_image
returns Skipped(3) yet its event trace records the issued GET. -/
theorem c3_check_before_get_counterexample :
    (download_image (fun _ => 0) (fun _ => .ok ⟨200, "image/png".toList, [9]⟩)
        ("https://h.x/a.png".toList) [("a.png".toList, [1, 2, 3])] initStats).outcome =
      .skipped 3 ∧
    (download_image (fun _ => 0) (fun _ => .ok ⟨200, "image/png".toList, [9]⟩)
        ("https://h.x/a.png".toList) [("a.png".toList, [1, 2, 3])] initStats).events =
      [.httpGet ("https://h.x/a.png".toList)] := by
  constructor <;> decide

/-- A nonzero file at the target path makes download_image return the
Skipped record after its GET, with the filesystem untouched. -/
theorem download_image_skip_of_existing (h : Str → Int) (net : Net) (url : Str) (fs : Fs)
    (stats : Stats) (r : Response) (content : FileContent)
    (hvalid : validate_url url = true)
    (hnet : net url = .ok r)
    (hst : ¬(400 ≤ r.status ∧ r.status < 600))
    (hct : contentTypeOk (pyLower r.contentType) = true)
    (hfile : fsLookup fs (downloadFilename h url (pyLower r.contentType)) = some content)
    (hlen : 0 < content.length) :
    download_image h net url fs stats =
      ⟨true, .skipped content.length, fs,
        { stats with images_skipped := stats.images_skipped + 1 },
        [.httpGet url]⟩ := by
  unfold download_image
  rw [if_neg (by simp [hvalid]), hnet]
  simp only [if_neg hst, hct, Bool.true_eq_false, if_false, hfile, if_pos hlen]

/-- C3 (amended): the file-existence check occurs after the GET request:
when a nonzero-size file already sits at the target path (and the URL is
valid and the response is an acceptable image), download_image returns
Skipped(size) without writing, but a GET request has already been issued,
as the singleton event trace shows. -/
theorem c3_skip_after_get (h : Str → Int) (net : Net) (url : Str) (fs : Fs)
    (stats : Stats) (r : Response) (content : FileContent)
    (hvalid : validate_url url = true)
    (hnet : net url = .ok r)
    (hst : ¬(400 ≤ r.status ∧ r.status < 600))
    (hct : contentTypeOk (pyLower r.contentType) = true)
    (hfile : fsLookup fs (downloadFilename h url (pyLower r.contentType)) = some content)
    (hlen : 0 < content.length) :
    download_image h net url fs stats =
      ⟨true, .skipped content.length, fs,
        { stats with images_skipped := stats.images_skipped + 1 },
        [.httpGet url]⟩ :=
  download_image_skip_of_existing h net url fs stats r content hvalid hnet hst hct hfile hlen

/-- C3, witness: the amended theorem at the concrete input of the
counterexample. -/
theorem c3_skip_after_get_witness :
    download_image (fun _ => 0) (fun _ => .ok ⟨200, "image/png".toList, [9]⟩)
        ("https://h.x/a.png".toList) [("a.png".toList, [1, 2, 3])] initStats =
      ⟨true, .skipped 3, [("a.png".toList, [1, 2, 3])],
        { initStats with images_skipped := 1 }, [.httpGet ("https://h.x/a.png".toList)]⟩ := by
  have := c3_skip_after_get (fun _ => 0)
    (fun _ => .ok ⟨200, "image/png".toList, [9]⟩) ("https://h.x/a.png".toList)
    [("a.png".toList, [1, 2, 3])] initStats ⟨200, "image/png".toList, [9]⟩ [1, 2, 3]
    (by decide) rfl (by decide) (by decide) (by decide) (by decide)
  simpa using this

/-- C7: for a valid URL answered with a 2xx response of acceptable image
content type but an empty body, and no nonzero file already stored at the
target path, download_image yields Failed(empty_file) and leaves no file at
the target path: the file opened for writing is deleted again. -/
theorem c7_empty_body (h : Str → Int) (net : Net) (url : Str) (fs : Fs) (stats : Stats)
    (r : Response)
    (hvalid : validate_url url = true)
    (hnet : net url = .ok r)
    (hst : 200 ≤ r.status ∧ r.status < 300)
    (hct : contentTypeOk (pyLower r.contentType) = true)
    (hbody : r.body = [])
    (hfile : fsLookup fs (downloadFilename h url (pyLower r.contentType)) = none ∨
             fsLookup fs (downloadFilename h url (pyLower r.contentType)) = some []) :
    (download_image h net url fs stats).outcome = .failed .empty_file ∧
    fsLookup (download_image h net url fs stats).fs
      (downloadFilename h url (pyLower r.contentType)) = none := by
  have hst' : ¬(400 ≤ r.status ∧ r.status < 600) := by omega
  unfold download_image
  rw [if_neg (by simp [hvalid]), hnet]
  simp only [if_neg hst', hct, Bool.true_eq_false, if_false]
  rcases hfile with hf | hf
  · rw [hf]
    unfold finishDownload
    rw [hbody]
    simp [fsLookup_fsRemove_self]
  · rw [hf]
    simp only [List.length_nil, lt_irrefl, if_false]
    unfold finishDownload
    rw [hbody]
    simp [fsLookup_fsRemove_self]

/-- C7, witness: a 204-style empty response on a fresh folder. -/
theorem c7_empty_body_witness :
    (download_image (fun _ => 0) (fun _ => .ok ⟨200, "image/png".toList, []⟩)
        ("https://h.x/a.png".toList) [] initStats).outcome = .failed .empty_file ∧
    fsLookup (download_image (fun _ => 0) (fun _ => .ok ⟨200, "image/png".toList, []⟩)
        ("https://h.x/a.png".toList) [] initStats).fs
      (downloadFilename (fun _ => 0) ("https://h.x/a.png".toList)
        (pyLower "image/png".toList)) = none :=
  c7_empty_body (fun _ => 0) (fun _ => .ok ⟨200, "image/png".toList, []⟩)
    ("https://h.x/a.png".toList) [] initStats ⟨200, "image/png".toList, []⟩
    (by decide) rfl (by decide) (by decide) rfl (Or.inl rfl)

/-- Inversion of the success path of download_image: a Downloaded outcome
pins the URL as valid, the response as an acceptable nonempty image, and
the stored file as the response body. -/
theorem download_image_downloaded_inv (h : Str → Int) (net : Net) (url : Str)
    (fs : Fs) (stats : Stats)
    (hd : (download_image h net url fs stats).outcome = .downloaded) :
    validate_url url = true ∧
    ∃ r, net url = .ok r ∧ ¬(400 ≤ r.status ∧ r.status < 600) ∧
      contentTypeOk (pyLower r.contentType) = true ∧ r.body ≠ [] ∧
      fsLookup (download_image h net url fs stats).fs
        (downloadFilename h url (pyLower r.contentType)) = some r.body := by
  unfold download_image at hd ⊢
  cases hval : validate_url url with
  | false => simp [hval] at hd
  | true =>
    simp only [hval, Bool.true_eq_false, if_false] at hd ⊢
    refine ⟨by trivial, ?_⟩
    cases hnet : net url with
    | timeout => simp [hnet] at hd
    | connError => simp [hnet] at hd
    | ok r =>
      simp only [hnet] at hd ⊢
      by_cases hst : 400 ≤ r.status ∧ r.status < 600
      · simp [if_pos hst] at hd
      · simp only [if_neg hst] at hd ⊢
        cases hct : contentTypeOk (pyLower r.contentType) with
        | false => simp [hct] at hd
        | true =>
          simp only [hct, Bool.true_eq_false, if_false] at hd ⊢
          refine ⟨r, rfl, hst, hct, ?_⟩
          cases hlook : fsLookup fs (downloadFilename h url (pyLower r.contentType)) with
          | some content =>
            simp only [hlook] at hd ⊢
            by_cases hlen : 0 < content.length
            · simp [if_pos hlen] at hd
            · simp only [if_neg hlen] at hd ⊢
              unfold finishDownload at hd ⊢
              by_cases hbody : r.body.length = 0
              · rw [if_pos hbody] at hd
                simp at hd
              · rw [if_neg hbody] at hd ⊢
                refine ⟨fun hb => hbody (by simp [hb]), ?_⟩
                simpa using fsLookup_fsWrite_self
                  (fsRemove fs (downloadFilename h url (pyLower r.contentType)))
                  (downloadFilename h url (pyLower r.contentType)) r.body
          | none =>
            simp only [hlook] at hd ⊢
            unfold finishDownload at hd ⊢
            by_cases hbody : r.body.length = 0
            · rw [if_pos hbody] at hd
              simp at hd
            · rw [if_neg hbody] at hd ⊢
              refine ⟨fun hb => hbody (by simp [hb]), ?_⟩
              simpa using fsLookup_fsWrite_self fs
                (downloadFilename h url (pyLower r.contentType)) r.body

/-- Files other than the one being downloaded are untouched by the
write-then-maybe-delete tail of download_image. -/
theorem fsLookup_finishDownload_ne (url n : Str) (body : FileContent) (fs0 : Fs)
    (stats : Stats) (p : Str) (hpn : p ≠ n) :
    fsLookup (finishDownload url n body fs0 stats).fs p = fsLookup fs0 p := by
  unfold finishDownload
  by_cases hb : body.length = 0
  · rw [if_pos hb]
    simp [fsLookup_fsRemove_ne _ hpn, fsLookup_fsWrite_ne _ _ hpn]
  · rw [if_neg hb]
    simp [fsLookup_fsWrite_ne _ _ hpn]

/-- A stored file of nonzero size is never modified by download_image,
whatever the URL or the network does. -/
theorem download_image_preserves_nonzero (h : Str → Int) (net : Net) (url : Str)
    (fs : Fs) (stats : Stats) (p : Str) (c : FileContent)
    (hp : fsLookup fs p = some c) (hc : 0 < c.length) :
    fsLookup (download_image h net url fs stats).fs p = some c := by
  unfold download_image
  cases hval : validate_url url with
  | false => simpa using hp
  | true =>
    simp only [hval, Bool.true_eq_false, if_false]
    cases hnet : net url with
    | timeout => simpa using hp
    | connError => simpa using hp
    | ok r =>
      simp only []
      by_cases hst : 400 ≤ r.status ∧ r.status < 600
      · rw [if_pos hst]
        simpa using hp
      · rw [if_neg hst]
        cases hct : contentTypeOk (pyLower r.contentType) with
        | false => simpa using hp
        | true =>
          simp only [hct, Bool.true_eq_false, if_false]
          cases hlook : fsLookup fs (downloadFilename h url (pyLower r.contentType)) with
          | some content =>
            simp only [hlook]
            by_cases hlen : 0 < content.length
            · rw [if_pos hlen]
              simpa using hp
            · rw [if_neg hlen]
              have hcz : content = [] := by
                cases content with
                | nil => rfl
                | cons a t => exact absurd (by simp) hlen
              have hpn : p ≠ downloadFilename h url (pyLower r.contentType) := by
                intro he
                rw [he, hlook] at hp
                cases hp
                subst hcz
                exact absurd hc (by simp)
              rw [fsLookup_finishDownload_ne _ _ _ _ _ _ hpn,
                fsLookup_fsRemove_ne _ hpn]
              exact hp
          | none =>
            simp only [hlook]
            have hpn : p ≠ downloadFilename h url (pyLower r.contentType) := by
              intro he
              rw [he, hlook] at hp
              cases hp
            rw [fsLookup_finishDownload_ne _ _ _ _ _ _ hpn]
            exact hp

/-- An existing zero-byte file at the target path is deleted and replaced
by the freshly downloaded body. -/
theorem download_image_replaces_zero (h : Str → Int) (net : Net) (url : Str)
    (fs : Fs) (stats : Stats) (r : Response)
    (hvalid : validate_url url = true)
    (hnet : net url = .ok r)
    (hst : ¬(400 ≤ r.status ∧ r.status < 600))
    (hct : contentTypeOk (pyLower r.contentType) = true)
    (hzero : fsLookup fs (downloadFilename h url (pyLower r.contentType)) = some [])
    (hbody : r.body ≠ []) :
    (download_image h net url fs stats).outcome = .downloaded ∧
    fsLookup (download_image h net url fs stats).fs
      (downloadFilename h url (pyLower r.contentType)) = some r.body := by
  have hbl : ¬r.body.length = 0 := by simpa using hbody
  unfold download_image
  rw [if_neg (by simp [hvalid]), hnet]
  simp only [if_neg hst, hct, Bool.true_eq_false, if_false, hzero,
    List.length_nil, lt_irrefl, if_false]
  unfold finishDownload
  rw [if_neg hbl]
  exact ⟨rfl, by simpa using fsLookup_fsWrite_self _ _ r.body⟩

/-- C6, counterexample: the claim quantifies over all URLs, but for the
empty URL the first call fails validation (Failed(invalid_url)), so the
pair of calls yields Failed twice, not Downloaded then Skipped. -/
theorem c6_counterexample :
    (download_image (fun _ => 0) (fun _ => .ok ⟨200, "image/png".toList, [1]⟩)
        [] [] initStats).outcome = .failed .invalid_url := by
  decide

/-- C6 (amended): whenever the first call downloads, the second call
against the same destination and network skips and leaves the file content
unchanged; a stored file with nonzero size is never modified by any call;
an existing zero-byte file is deleted and replaced by the freshly
downloaded body.  (URLs whose download fails — invalid, network error,
bad content type, empty body — fail identically on both calls and are
outside the Downloaded-then-Skipped pattern.) -/
theorem c6_download_idempotent :
    (∀ (h : Str → Int) (net : Net) (url : Str) (fs : Fs) (stats stats2 : Stats),
      (download_image h net url fs stats).outcome = .downloaded →
      ∃ n, 0 < n ∧
        (download_image h net url (download_image h net url fs stats).fs stats2).outcome =
          .skipped n ∧
        (download_image h net url (download_image h net url fs stats).fs stats2).fs =
          (download_image h net url fs stats).fs) ∧
    (∀ (h : Str → Int) (net : Net) (url : Str) (fs : Fs) (stats : Stats)
        (p : Str) (c : FileContent),
      fsLookup fs p = some c → 0 < c.length →
      fsLookup (download_image h net url fs stats).fs p = some c) ∧
    (∀ (h : Str → Int) (net : Net) (url : Str) (fs : Fs) (stats : Stats) (r : Response),
      validate_url url = true → net url = .ok r →
      ¬(400 ≤ r.status ∧ r.status < 600) →
      contentTypeOk (pyLower r.contentType) = true →
      fsLookup fs (downloadFilename h url (pyLower r.contentType)) = some [] →
      r.body ≠ [] →
      (download_image h net url fs stats).outcome = .downloaded ∧
      fsLookup (download_image h net url fs stats).fs
        (downloadFilename h url (pyLower r.contentType)) = some r.body) := by
  refine ⟨?_, download_image_preserves_nonzero, download_image_replaces_zero⟩
  intro h net url fs stats stats2 hd
  obtain ⟨hval, r, hnet, hst, hct, hbody, hlook⟩ :=
    download_image_downloaded_inv h net url fs stats hd
  refine ⟨r.body.length, List.length_pos.mpr hbody, ?_, ?_⟩
  · rw [download_image_skip_of_existing h net url _ stats2 r r.body hval hnet hst hct hlook
      (List.length_pos.mpr hbody)]
  · rw [download_image_skip_of_existing h net url _ stats2 r r.body hval hnet hst hct hlook
      (List.length_pos.mpr hbody)]

/-- C6, witness: a fresh two-call run on a concrete URL, a concrete
preserved nonzero file, and a concrete zero-byte replacement. -/
theorem c6_download_idempotent_witness :
    (∃ n, 0 < n ∧
      (download_image (fun _ => 0) (fun _ => .ok ⟨200, "image/png".toList, [7, 8]⟩)
          ("https://h.x/a.png".toList)
          (download_image (fun _ => 0) (fun _ => .ok ⟨200, "image/png".toList, [7, 8]⟩)
            ("https://h.x/a.png".toList) [] initStats).fs initStats).outcome =
        .skipped n ∧
      (download_image (fun _ => 0) (fun _ => .ok ⟨200, "image/png".toList, [7, 8]⟩)
          ("https://h.x/a.png".toList)
          (download_image (fun _ => 0) (fun _ => .ok ⟨200, "image/png".toList, [7, 8]⟩)
            ("https://h.x/a.png".toList) [] initStats).fs initStats).fs =
        (download_image (fun _ => 0) (fun _ => .ok ⟨200, "image/png".toList, [7, 8]⟩)
          ("https://h.x/a.png".toList) [] initStats).fs) ∧
    fsLookup (download_image (fun _ => 0) (fun _ => .timeout) ("https://h.x/b.png".toList)
        [("keep.png".toList, [5])] initStats).fs ("keep.png".toList) = some [5] ∧
    (download_image (fun _ => 0) (fun _ => .ok ⟨200, "image/png".toList, [7, 8]⟩)
        ("https://h.x/a.png".toList) [("a.png".toList, [])] initStats).outcome =
      .downloaded :=
  ⟨c6_download_idempotent.1 (fun _ => 0)
      (fun _ => .ok ⟨200, "image/png".toList, [7, 8]⟩) ("https://h.x/a.png".toList)
      [] initStats initStats (by decide),
   c6_download_idempotent.2.1 (fun _ => 0) (fun _ => .timeout)
      ("https://h.x/b.png".toList) [("keep.png".toList, [5])] initStats
      ("keep.png".toList) [5] rfl (by decide),
   (c6_download_idempotent.2.2 (fun _ => 0)
      (fun _ => .ok ⟨200, "image/png".toList, [7, 8]⟩) ("https://h.x/a.png".toList)
      [("a.png".toList, [])] initStats ⟨200, "image/png".toList, [7, 8]⟩
      (by decide) rfl (by decide) (by decide) (by decide) (by decide)).1⟩

/-- Every character Nat.toDigitsCore adds comes from Nat.digitChar. -/
theorem mem_toDigitsCore (b : Nat) :
    ∀ (f n : Nat) (ds : List Char) (c : Char), c ∈ Nat.toDigitsCore b f n ds →
      c ∈ ds ∨ ∃ m, c = Nat.digitChar m := by
  intro f
  induction f with
  | zero =>
    intro n ds c hc
    exact Or.inl (by simpa [Nat.toDigitsCore] using hc)
  | succ f ih =>
    intro n ds c hc
    simp only [Nat.toDigitsCore] at hc
    by_cases hdiv : n / b = 0
    · rw [if_pos hdiv] at hc
      rcases List.mem_cons.mp hc with h | h
      · exact Or.inr ⟨n % b, h⟩
      · exact Or.inl h
    · rw [if_neg hdiv] at hc
      rcases ih _ _ _ hc with h | h
      · rcases List.mem_cons.mp h with h' | h'
        · exact Or.inr ⟨n % b, h'⟩
        · exact Or.inl h'
      · exact Or.inr h

theorem digitChar_big (m : Nat) (hm : 16 ≤ m) : Nat.digitChar m = '*' := by
  unfold Nat.digitChar
  repeat rw [if_neg (by omega)]

theorem digitChar_ne_dot (m : Nat) : Nat.digitChar m ≠ '.' := by
  by_cases hm : m < 16
  · have hall : ∀ k, k < 16 → Nat.digitChar k ≠ '.' := by decide
    exact hall m hm
  · rw [digitChar_big m (by omega)]
    decide

/-- The decimal digits of a Nat contain no dot. -/
theorem repr_no_dot (n : Nat) : ∀ c ∈ (Nat.repr n).toList, c ≠ '.' := by
  intro c hc
  have hc' : c ∈ Nat.toDigitsCore 10 (n + 1) n [] := by
    simpa [Nat.repr, Nat.toDigits, List.asString] using hc
  rcases mem_toDigitsCore 10 (n + 1) n [] c hc' with h | ⟨m, rfl⟩
  · simp at h
  · exact digitChar_ne_dot m

/-- The hash-derived fallback filename never carries an extension, so the
content-type extension is always appended to it. -/
theorem fallback_no_ext (h : Str → Int) (url : Str) :
    hasExtension (fallbackFilename h url) = false := by
  unfold hasExtension fallbackFilename
  rw [show ("image_".toList : Str) = 'i' :: "mage_".toList from rfl,
    List.cons_append, List.dropWhile_cons_of_neg (by decide)]
  rw [List.any_eq_false]
  intro c hc
  rcases List.mem_cons.mp hc with rfl | hc'
  · decide
  · rcases List.mem_append.mp hc' with hm | hm
    · have : c = 'm' ∨ c = 'a' ∨ c = 'g' ∨ c = 'e' ∨ c = '_' := by simpa using hm
      rcases this with rfl | rfl | rfl | rfl | rfl <;> decide
    · simpa using repr_no_dot _ c hm

/-- C8, counterexample: the fallback filename is built from Python's
built-in hash, which CPython randomizes per process (PYTHONHASHSEED), so
two runs of the program are two different hash oracles: here the runs
hashing the URL to 0 and to 1 store the same extension-less URL
"https://h.x/" under different names.  The claim's stability across runs
fails. -/
theorem c8_fallback_counterexample :
    downloadFilename (fun _ => 0) ("https://h.x/".toList) (pyLower "image/png".toList) ≠
    downloadFilename (fun _ => 1) ("https://h.x/".toList) (pyLower "image/png".toList) := by
  decide

/-- C8 (amended): the fallback filename is a deterministic function of the
URL given the run's string-hash seed — any two runs whose hash agrees on
the URL (in particular, runs with the same PYTHONHASHSEED) derive the same
name — and for a URL whose path yields an empty basename the stored name
is exactly the hash-derived fallback name plus the content-type
extension. -/
theorem c8_fallback_deterministic :
    (∀ (h1 h2 : Str → Int) (url ct : Str), h1 url = h2 url →
      downloadFilename h1 url ct = downloadFilename h2 url ct) ∧
    (∀ (h : Str → Int) (url ct : Str), basename (splitUrl url).path = [] →
      downloadFilename h url ct = fallbackFilename h url ++ inferExtension ct) := by
  constructor
  · intro h1 h2 url ct hseed
    unfold downloadFilename fallbackFilename
    rw [hseed]
  · intro h url ct hb
    unfold downloadFilename
    rw [hb]
    simp only [List.isEmpty_nil, if_true, fallback_no_ext, Bool.false_eq_true, if_false]

/-- C8, witness: both parts at concrete inputs — equal hashes on the URL,
and an empty-basename URL. -/
theorem c8_fallback_deterministic_witness :
    downloadFilename (fun _ => 42) ("https://h.x/".toList) (pyLower "image/png".toList) =
      downloadFilename (fun _ => 42) ("https://h.x/".toList) (pyLower "image/png".toList) ∧
    downloadFilename (fun _ => 42) ("https://h.x/".toList) (pyLower "image/png".toList) =
      fallbackFilename (fun _ => 42) ("https://h.x/".toList) ++
        inferExtension (pyLower "image/png".toList) :=
  ⟨c8_fallback_deterministic.1 (fun _ => 42) (fun _ => 42) ("https://h.x/".toList)
      (pyLower "image/png".toList) rfl,
   c8_fallback_deterministic.2 (fun _ => 42) ("https://h.x/".toList)
      (pyLower "image/png".toList) (by decide)⟩

/-! ## Page extraction and crawl

HTML parsing is an external capability: a fetched page is modelled as the
data the scraper queries from the soup — presence of an html root node and
the match list of each of the five selectors (source lines 239–270). -/

/-- An img node: its src attribute, if any (source line 282). -/
structure ImgTag where
  src : Option Str
deriving DecidableEq

/-- A parsed page as seen through the queries scrape_page makes. -/
structure PageDoc where
  hasHtml : Bool
  sel1 : List ImgTag
  sel2 : List ImgTag
  sel3 : List ImgTag
  sel4 : List ImgTag
  sel5 : List ImgTag
deriving DecidableEq

/-- The five selectors, in source order: div.m-5 img.cursor-pointer;
img.cursor-pointer; div.m-5 img; img[src*=midjourney]; img[src*=cdn]. -/
inductive SelName where
  | primary | s2 | s3 | s4 | s5
deriving DecidableEq, Repr

/-- Source lines 241–259: the primary selector, then the alternative
selectors in order, first non-empty match list wins; the trace records
which selectors were evaluated. -/
def selectChain (doc : PageDoc) : List ImgTag × List SelName :=
  if doc.sel1 ≠ [] then (doc.sel1, [.primary])
  else if doc.sel2 ≠ [] then (doc.sel2, [.primary, .s2])
  else if doc.sel3 ≠ [] then (doc.sel3, [.primary, .s2, .s3])
  else if doc.sel4 ≠ [] then (doc.sel4, [.primary, .s2, .s3, .s4])
  else if doc.sel5 ≠ [] then (doc.sel5, [.primary, .s2, .s3, .s4, .s5])
  else ([], [.primary, .s2, .s3, .s4, .s5])

/-- Source lines 212–223: up to max_retries = 3 attempts to fetch a page;
none models a requests.RequestException (timeout, connection error, or
raise_for_status); the inter-attempt sleep only delays. -/
def fetchRetry (pr : Nat → Option PageDoc) : Option PageDoc :=
  match pr 0 with
  | some d => some d
  | none =>
    match pr 1 with
    | some d => some d
    | none => pr 2

/-- Source lines 279–309: the per-image loop.  A missing or empty src only
bumps the local failed_downloads counter (no stats change); otherwise the
full-resolution URL is resolved and downloaded.  The per-item
except-branch (processing_error) is unreachable here: the modelled body
does not throw. -/
def processTags (h : Str → Int) (net : Net) : List ImgTag → Fs → Stats → Fs × Stats
  | [], fs, stats => (fs, stats)
  | tag :: rest, fs, stats =>
    match tag.src with
    | none => processTags h net rest fs stats
    | some src =>
      if src.isEmpty then processTags h net rest fs stats
      else
        let d := download_image h net (resolveFullRes src) fs stats
        processTags h net rest d.fs d.stats

/-- The outcome of one scrape_page call: folder, stats, and the selector
evaluation trace. -/
structure PageResult where
  fs : Fs
  stats : Stats
  selTrace : List SelName
deriving DecidableEq

/-- Source lines 204–319: scrape_page(page_number).  pageResp maps a page
and an attempt index to the parsed document, none standing for a fetch
failure of that attempt. -/
def scrape_page (h : Str → Int) (net : Net) (pageResp : Nat → Nat → Option PageDoc)
    (page : Nat) (fs : Fs) (stats : Stats) : PageResult :=
  let stats := { stats with pages_attempted := stats.pages_attempted + 1 }
  match fetchRetry (fun a => pageResp page a) with
  | none => ⟨fs, { stats with errors := bumpErr stats.errors .page_fetch_error }, []⟩
  | some doc =>
    if doc.hasHtml = false then
      ⟨fs, { stats with errors := bumpErr stats.errors .invalid_html }, []⟩
    else
      let tagsTrace := selectChain doc
      if tagsTrace.1.isEmpty then
        ⟨fs, { stats with errors := bumpErr stats.errors .no_images_found }, tagsTrace.2⟩
      else
        let stats := { stats with images_found := stats.images_found + tagsTrace.1.length }
        let r := processTags h net tagsTrace.1 fs stats
        ⟨r.1, { r.2 with pages_successful := r.2.pages_successful + 1 }, tagsTrace.2⟩

/-! ## Summary and run controller -/

/-- The four troubleshooting hints of print_summary (source lines 346–354). -/
inductive Hint where
  | connectivity_timeout | connectivity_conn | site_structure | url_structure
deriving DecidableEq, Repr

/-- Source lines 344–354: hints print only inside the
images_failed > 0 guard, one per recorded category among timeout,
connection_error, no_images_found, invalid_url. -/
def summaryHints (s : Stats) : List Hint :=
  if 0 < s.images_failed then
    (if 0 < errCount s.errors .timeout then [Hint.connectivity_timeout] else []) ++
    (if 0 < errCount s.errors .connection_error then [Hint.connectivity_conn] else []) ++
    (if 0 < errCount s.errors .no_images_found then [Hint.site_structure] else []) ++
    (if 0 < errCount s.errors .invalid_url then [Hint.url_structure] else [])
  else []

/-- What print_summary (source lines 321–354) writes: every counter of the
stats dictionary plus the hint block.  The success-rate line is a pure
rendering of downloaded and found. -/
structure Summary where
  rendered : Stats
  hints : List Hint
deriving DecidableEq

def print_summary (s : Stats) : Summary := ⟨s, summaryHints s⟩

/-- How the process ended: falling off the script, exit(1) (which raises
SystemExit), or re-raising a caught exception. -/
inductive Term where
  | normal | sysExit (code : Nat) | raised
deriving DecidableEq, Repr

/-- One run's environment: preflight result, folder-creation success, the
configured page range, an optional KeyboardInterrupt arriving just before
the k-th page of the range, the per-run Python hash, the asset network and
the page fetcher.  The source hardcodes startPage = 0 and endPage = 50 at
lines 369–370; the spec treats them as the run's configuration, so they
are parameters here, with the range check of lines 372–374 kept. -/
structure RunEnv where
  connOk : Bool
  folderOk : Bool
  startPage : Nat
  endPage : Nat
  interruptBefore : Option Nat
  h : Str → Int
  net : Net
  pageResp : Nat → Nat → Option PageDoc

structure RunResult where
  stats : Stats
  fs : Fs
  summary : Option Summary
  term : Term
deriving DecidableEq

/-- The crawl loop of source lines 381–386 over the listed pages. -/
def crawlPages (h : Str → Int) (net : Net) (pageResp : Nat → Nat → Option PageDoc) :
    List Nat → Fs → Stats → Fs × Stats
  | [], fs, stats => (fs, stats)
  | p :: rest, fs, stats =>
    let r := scrape_page h net pageResp p fs stats
    crawlPages h net pageResp rest r.fs r.stats

/-- Source lines 357–397, the top-level script.  exit(1) raises SystemExit,
which derives from BaseException, not Exception, so neither the
KeyboardInterrupt handler nor the except-Exception handler catches it: a
failed preflight check (line 363) and an invalid range (line 374) terminate
WITHOUT print_summary.  A failure while preparing the download folder
raises an ordinary Exception, which the top-level handler catches, prints
the summary for, and re-raises (lines 394–397).  KeyboardInterrupt during
the page loop still reaches print_summary (lines 391–393).  stats is
process-wide and freshly zeroed each run. -/
def runMain (env : RunEnv) : RunResult :=
  if env.connOk = false then
    ⟨initStats, [], none, .sysExit 1⟩
  else if env.folderOk = false then
    ⟨initStats, [], some (print_summary initStats), .raised⟩
  else if env.endPage < env.startPage then
    ⟨initStats, [], none, .sysExit 1⟩
  else
    let pages := List.range' env.startPage (env.endPage + 1 - env.startPage)
    let executed :=
      match env.interruptBefore with
      | none => pages
      | some k => pages.take k
    let r := crawlPages env.h env.net env.pageResp executed [] initStats
    ⟨r.2, r.1, some (print_summary r.2), .normal⟩

theorem errCount_bumpErr (m : ErrMap) (k : ErrKey) :
    errCount (bumpErr m k) k = errCount m k + 1 := by
  induction m with
  | nil => simp [bumpErr, errCount]
  | cons e rest ih =>
    obtain ⟨k', n⟩ := e
    by_cases hk : k' = k
    · simp [bumpErr, errCount, hk]
    · simp only [bumpErr, errCount, if_neg hk]
      exact ih

/-- C4, counterexample: the claim concludes from an empty primary selector
and a non-empty selector 3 that selector 3's matches are returned, but when
selector 2 also matches, first-match-wins returns selector 2's matches
instead: with sel1 = [], sel2 = [img a], sel3 = [img b], the chain returns
[img a], not selector 3's [img b]. -/
theorem c4_selector_counterexample :
    (selectChain ⟨true, [], [⟨some ("a".toList)⟩], [⟨some ("b".toList)⟩], [], []⟩).1 ≠
      [ImgTag.mk (some ("b".toList))] := by
  decide

/-- C4 (amended): the five selectors are tried in order with
first-match-wins semantics: if the primary selector AND selector 2 yield
zero matches while selector 3 yields matches, the returned sequence equals
selector 3's matches and selectors 4 and 5 are never evaluated (the
evaluation trace stops at selector 3); if all five selectors yield zero
matches, scrape_page records the no_images_found error. -/
theorem c4_selector_chain :
    (∀ doc : PageDoc, doc.sel1 = [] → doc.sel2 = [] → doc.sel3 ≠ [] →
      selectChain doc = (doc.sel3, [.primary, .s2, .s3])) ∧
    (∀ (h : Str → Int) (net : Net) (pageResp : Nat → Nat → Option PageDoc)
        (page : Nat) (fs : Fs) (stats : Stats) (doc : PageDoc),
      fetchRetry (fun a => pageResp page a) = some doc → doc.hasHtml = true →
      doc.sel1 = [] → doc.sel2 = [] → doc.sel3 = [] → doc.sel4 = [] → doc.sel5 = [] →
      errCount (scrape_page h net pageResp page fs stats).stats.errors .no_images_found =
        errCount stats.errors .no_images_found + 1) := by
  constructor
  · intro doc h1 h2 h3
    unfold selectChain
    rw [if_neg (by simp [h1]), if_neg (by simp [h2]), if_pos h3]
  · intro h net pageResp page fs stats doc hfetch hhtml h1 h2 h3 h4 h5
    unfold scrape_page
    rw [hfetch]
    simp only [hhtml, Bool.true_eq_false, if_false]
    have hsel : selectChain doc = ([], [.primary, .s2, .s3, .s4, .s5]) := by
      unfold selectChain
      rw [if_neg (by simp [h1]), if_neg (by simp [h2]), if_neg (by simp [h3]),
        if_neg (by simp [h4]), if_neg (by simp [h5])]
    rw [hsel]
    simpa using errCount_bumpErr _ .no_images_found

/-- C4, witness: the amended theorem at a document matching only selector 3
and at a document matching nothing. -/
theorem c4_selector_chain_witness :
    selectChain ⟨true, [], [], [ImgTag.mk none], [], []⟩ =
      ([ImgTag.mk none], [.primary, .s2, .s3]) ∧
    errCount (scrape_page (fun _ => 0) (fun _ => .timeout)
        (fun _ _ => some ⟨true, [], [], [], [], []⟩) 0 [] initStats).stats.errors
      .no_images_found = 1 :=
  ⟨c4_selector_chain.1 _ rfl rfl (by decide),
   by
    have := c4_selector_chain.2 (fun _ => 0) (fun _ => .timeout)
      (fun _ _ => some ⟨true, [], [], [], [], []⟩) 0 [] initStats
      ⟨true, [], [], [], [], []⟩ rfl rfl rfl rfl rfl rfl rfl
    simpa using this⟩

/-- C9, counterexample: a run whose only recorded error is no_images_found
has images_failed = 0, so the troubleshooting block (guarded by
images_failed > 0) prints nothing — the site-structure hint the claim
expects does not appear. -/
theorem c9_hints_counterexample :
    0 < errCount ({ initStats with errors := [(ErrKey.no_images_found, 1)] } : Stats).errors
      .no_images_found ∧
    (print_summary { initStats with errors := [(ErrKey.no_images_found, 1)] }).hints = [] := by
  constructor <;> decide

/-- C9 (amended): troubleshooting hints print only when at least one image
download failed (images_failed > 0); in that case exactly the recorded
categories among timeout, connection_error, no_images_found and
invalid_url contribute their hints; with images_failed = 0 — in particular
in a run whose only errors are page-level no_images_found — no hint is
printed. -/
theorem c9_hints (s : Stats) :
    (0 < s.images_failed →
      ((Hint.connectivity_timeout ∈ (print_summary s).hints ↔
          0 < errCount s.errors .timeout) ∧
       (Hint.connectivity_conn ∈ (print_summary s).hints ↔
          0 < errCount s.errors .connection_error) ∧
       (Hint.site_structure ∈ (print_summary s).hints ↔
          0 < errCount s.errors .no_images_found) ∧
       (Hint.url_structure ∈ (print_summary s).hints ↔
          0 < errCount s.errors .invalid_url))) ∧
    (s.images_failed = 0 → (print_summary s).hints = []) := by
  constructor
  · intro hf
    by_cases h1 : 0 < errCount s.errors .timeout <;>
      by_cases h2 : 0 < errCount s.errors .connection_error <;>
        by_cases h3 : 0 < errCount s.errors .no_images_found <;>
          by_cases h4 : 0 < errCount s.errors .invalid_url <;>
            simp [print_summary, summaryHints, hf, h1, h2, h3, h4]
  · intro hf
    simp [print_summary, summaryHints, hf]

/-- C9, witness: a timeout-only failing run prints the connectivity hint;
a clean run prints no hints. -/
theorem c9_hints_witness :
    Hint.connectivity_timeout ∈
      (print_summary { initStats with
        images_failed := 1
        errors := [(ErrKey.timeout, 1)] }).hints ∧
    (print_summary initStats).hints = [] :=
  ⟨((c9_hints { initStats with
      images_failed := 1
      errors := [(ErrKey.timeout, 1)] }).1 (by decide)).1.mpr (by decide),
   (c9_hints initStats).2 rfl⟩

/-- C1, counterexample: a failed preflight connectivity check reaches
exit(1) inside the try block; the raised SystemExit is not an Exception,
so no handler runs print_summary: the run terminates with exit code 1,
zero pages attempted, and NO summary — not the all-zero summary the claim
expects. -/
theorem c1_preflight_counterexample :
    (runMain ⟨false, true, 0, 2, none, fun _ => 0, fun _ => .timeout,
        fun _ _ => none⟩).summary = none ∧
    (runMain ⟨false, true, 0, 2, none, fun _ => 0, fun _ => .timeout,
        fun _ _ => none⟩).stats.pages_attempted = 0 ∧
    (runMain ⟨false, true, 0, 2, none, fun _ => 0, fun _ => .timeout,
        fun _ _ => none⟩).term = .sysExit 1 := by
  refine ⟨?_, ?_, ?_⟩ <;> decide

/-- C1 (amended): normal completion, user interruption during the page
loop, and an uncaught Exception (such as a download-folder failure) all
print the final summary before the process exits; but a failed preflight
connectivity check — and likewise an invalid page range — calls exit(1),
whose SystemExit escapes both handlers, so those runs terminate with exit
code 1, zero pages attempted and no summary. -/
theorem c1_summary_paths (env : RunEnv) :
    (env.connOk = false →
      runMain env = ⟨initStats, [], none, .sysExit 1⟩) ∧
    (env.connOk = true → env.folderOk = false →
      runMain env = ⟨initStats, [], some (print_summary initStats), .raised⟩) ∧
    (env.connOk = true → env.folderOk = true → ¬env.endPage < env.startPage →
      (runMain env).summary = some (print_summary (runMain env).stats) ∧
      (runMain env).term = .normal) ∧
    (env.connOk = true → env.folderOk = true → env.endPage < env.startPage →
      (runMain env).summary = none ∧ (runMain env).term = .sysExit 1) := by
  refine ⟨?_, ?_, ?_, ?_⟩
  · intro hc
    unfold runMain
    rw [if_pos hc]
  · intro hc hf
    unfold runMain
    rw [if_neg (by simp [hc]), if_pos hf]
  · intro hc hf hr
    unfold runMain
    rw [if_neg (by simp [hc]), if_neg (by simp [hf]), if_neg hr]
    exact ⟨rfl, rfl⟩
  · intro hc hf hr
    unfold runMain
    rw [if_neg (by simp [hc]), if_neg (by simp [hf]), if_pos hr]
    exact ⟨rfl, rfl⟩

/-- C1, witness: the amended theorem at a preflight-failing run, an
interrupted-but-summarized run, and an inverted-range run. -/
theorem c1_summary_paths_witness :
    runMain ⟨false, true, 0, 2, none, fun _ => 0, fun _ => .timeout, fun _ _ => none⟩ =
      ⟨initStats, [], none, .sysExit 1⟩ ∧
    (runMain ⟨true, true, 0, 3, some 1, fun _ => 0, fun _ => .timeout,
        fun _ _ => none⟩).summary =
      some (print_summary (runMain ⟨true, true, 0, 3, some 1, fun _ => 0,
        fun _ => .timeout, fun _ _ => none⟩).stats) ∧
    (runMain ⟨true, true, 5, 2, none, fun _ => 0, fun _ => .timeout,
        fun _ _ => none⟩).summary = none :=
  ⟨(c1_summary_paths _).1 rfl,
   ((c1_summary_paths _).2.2.1 rfl rfl (by decide)).1,
   ((c1_summary_paths _).2.2.2 rfl rfl (by decide)).1⟩

/-- One page of the connector-error scenario: a well-formed document whose
primary selector finds a single image. -/
def scenarioDoc (u : Str) : PageDoc := ⟨true, [⟨some u⟩], [], [], [], []⟩

/-- The C5 scenario environment: range [0, 2]; page 1 fails all three fetch
attempts with a connector error; pages 0 and 2 each serve one image; every
asset GET succeeds with a nonempty png body. -/
def scenarioEnv : RunEnv where
  connOk := true
  folderOk := true
  startPage := 0
  endPage := 2
  interruptBefore := none
  h := fun _ => 0
  net := fun _ => .ok ⟨200, "image/png".toList, [1, 2, 3]⟩
  pageResp := fun p _ =>
    if p = 1 then none
    else if p = 0 then some (scenarioDoc ("https://h.x/p0.png".toList))
    else some (scenarioDoc ("https://h.x/p2.png".toList))

/-- C5: with range [0, 2] and page 1 failing all 3 attempts while pages 0
and 2 succeed, the crawl continues past the failed page: pages 0 and 2
each produce a download, pages_attempted = 3, pages_successful = 2, and
the error breakdown records page_fetch_error once. -/
theorem c5_failed_page_continues :
    (runMain scenarioEnv).stats.pages_attempted = 3 ∧
    (runMain scenarioEnv).stats.pages_successful = 2 ∧
    errCount (runMain scenarioEnv).stats.errors .page_fetch_error = 1 ∧
    (runMain scenarioEnv).stats.images_downloaded = 2 := by
  refine ⟨?_, ?_, ?_, ?_⟩ <;> decide

/-- Every download_image call bumps exactly one of images_downloaded,
images_skipped, images_failed by one, leaves the other counters alone, and
returns True exactly when the bump was not a failure. -/
theorem download_image_counter_delta (h : Str → Int) (net : Net) (url : Str)
    (fs : Fs) (stats : Stats) :
    (download_image h net url fs stats).stats.images_found = stats.images_found ∧
    (download_image h net url fs stats).stats.pages_attempted = stats.pages_attempted ∧
    (download_image h net url fs stats).stats.pages_successful = stats.pages_successful ∧
    (((download_image h net url fs stats).ret = true ∧
      (download_image h net url fs stats).stats.images_downloaded =
        stats.images_downloaded + 1 ∧
      (download_image h net url fs stats).stats.images_skipped = stats.images_skipped ∧
      (download_image h net url fs stats).stats.images_failed = stats.images_failed) ∨
     ((download_image h net url fs stats).ret = true ∧
      (download_image h net url fs stats).stats.images_downloaded =
        stats.images_downloaded ∧
      (download_image h net url fs stats).stats.images_skipped =
        stats.images_skipped + 1 ∧
      (download_image h net url fs stats).stats.images_failed = stats.images_failed) ∨
     ((download_image h net url fs stats).ret = false ∧
      (download_image h net url fs stats).stats.images_downloaded =
        stats.images_downloaded ∧
      (download_image h net url fs stats).stats.images_skipped = stats.images_skipped ∧
      (download_image h net url fs stats).stats.images_failed =
        stats.images_failed + 1)) := by
  unfold download_image
  cases hval : validate_url url with
  | false => simp [failStat]
  | true =>
    simp only [hval, Bool.true_eq_false, if_false]
    cases hnet : net url with
    | timeout => simp [failStat]
    | connError => simp [failStat]
    | ok r =>
      simp only []
      by_cases hst : 400 ≤ r.status ∧ r.status < 600
      · rw [if_pos hst]
        simp [failStat]
      · rw [if_neg hst]
        cases hct : contentTypeOk (pyLower r.contentType) with
        | false => simp [failStat]
        | true =>
          simp only [hct, Bool.true_eq_false, if_false]
          cases hlook : fsLookup fs (downloadFilename h url (pyLower r.contentType)) with
          | some content =>
            simp only [hlook]
            by_cases hlen : 0 < content.length
            · rw [if_pos hlen]
              simp
            · rw [if_neg hlen]
              unfold finishDownload
              by_cases hbody : r.body.length = 0
              · rw [if_pos hbody]
                simp [failStat]
              · rw [if_neg hbody]
                simp
          | none =>
            simp only [hlook]
            unfold finishDownload
            by_cases hbody : r.body.length = 0
            · rw [if_pos hbody]
              simp [failStat]
            · rw [if_neg hbody]
              simp

/-- The per-image loop adds at most one counted outcome per image tag and
never touches images_found or the page counters. -/
theorem processTags_bound (h : Str → Int) (net : Net) :
    ∀ (tags : List ImgTag) (fs : Fs) (stats : Stats),
      (processTags h net tags fs stats).2.images_found = stats.images_found ∧
      (processTags h net tags fs stats).2.pages_attempted = stats.pages_attempted ∧
      (processTags h net tags fs stats).2.pages_successful = stats.pages_successful ∧
      (processTags h net tags fs stats).2.images_downloaded +
          (processTags h net tags fs stats).2.images_skipped +
          (processTags h net tags fs stats).2.images_failed ≤
        stats.images_downloaded + stats.images_skipped + stats.images_failed +
          tags.length := by
  intro tags
  induction tags with
  | nil =>
    intro fs stats
    simp [processTags]
  | cons tag rest ih =>
    intro fs stats
    cases htag : tag.src with
    | none =>
      simp only [processTags, htag]
      obtain ⟨h1, h2, h3, h4⟩ := ih fs stats
      exact ⟨h1, h2, h3, by simp only [List.length_cons]; omega⟩
    | some src =>
      simp only [processTags, htag]
      by_cases hsrc : src.isEmpty
      · rw [if_pos hsrc]
        obtain ⟨h1, h2, h3, h4⟩ := ih fs stats
        exact ⟨h1, h2, h3, by simp only [List.length_cons]; omega⟩
      · rw [if_neg hsrc]
        obtain ⟨g1, g2, g3, gd⟩ :=
          download_image_counter_delta h net (resolveFullRes src) fs stats
        obtain ⟨h1, h2, h3, h4⟩ :=
          ih (download_image h net (resolveFullRes src) fs stats).fs
            (download_image h net (resolveFullRes src) fs stats).stats
        refine ⟨by rw [h1, g1], by rw [h2, g2], by rw [h3, g3], ?_⟩
        simp only [List.length_cons]
        rcases gd with ⟨_, e1, e2, e3⟩ | ⟨_, e1, e2, e3⟩ | ⟨_, e1, e2, e3⟩ <;> omega

/-- scrape_page preserves the invariant that the three per-image outcome
counters never exceed images_found. -/
theorem scrape_page_inv (h : Str → Int) (net : Net)
    (pageResp : Nat → Nat → Option PageDoc) (page : Nat) (fs : Fs) (stats : Stats)
    (hinv : stats.images_downloaded + stats.images_skipped + stats.images_failed ≤
      stats.images_found) :
    (scrape_page h net pageResp page fs stats).stats.images_downloaded +
        (scrape_page h net pageResp page fs stats).stats.images_skipped +
        (scrape_page h net pageResp page fs stats).stats.images_failed ≤
      (scrape_page h net pageResp page fs stats).stats.images_found := by
  unfold scrape_page
  cases hf : fetchRetry (fun a => pageResp page a) with
  | none => simpa using hinv
  | some doc =>
    simp only []
    cases hh : doc.hasHtml with
    | false => simpa using hinv
    | true =>
      simp only [hh, Bool.true_eq_false, if_false]
      by_cases hempty : (selectChain doc).1.isEmpty
      · rw [if_pos hempty]
        simpa using hinv
      · rw [if_neg hempty]
        obtain ⟨h1, h2, h3, h4⟩ := processTags_bound h net (selectChain doc).1 fs
          { stats with
            pages_attempted := stats.pages_attempted + 1
            images_found := stats.images_found + (selectChain doc).1.length }
        simp only at h1 h4 ⊢
        omega

/-- The whole crawl preserves the counter invariant. -/
theorem crawlPages_inv (h : Str → Int) (net : Net)
    (pageResp : Nat → Nat → Option PageDoc) :
    ∀ (pages : List Nat) (fs : Fs) (stats : Stats),
      stats.images_downloaded + stats.images_skipped + stats.images_failed ≤
        stats.images_found →
      (crawlPages h net pageResp pages fs stats).2.images_downloaded +
          (crawlPages h net pageResp pages fs stats).2.images_skipped +
          (crawlPages h net pageResp pages fs stats).2.images_failed ≤
        (crawlPages h net pageResp pages fs stats).2.images_found := by
  intro pages
  induction pages with
  | nil =>
    intro fs stats hinv
    simpa [crawlPages] using hinv
  | cons p rest ih =>
    intro fs stats hinv
    simp only [crawlPages]
    exact ih _ _ (scrape_page_inv h net pageResp p fs stats hinv)

/-- C10: every download_image call increments exactly one of
images_downloaded, images_skipped, images_failed by exactly one and
returns True exactly when the increment was not a failure; an image tag
without a src attribute increments none of the three; and over any whole
run the sum of the three never exceeds images_found. -/
theorem c10_counter_discipline :
    (∀ (h : Str → Int) (net : Net) (url : Str) (fs : Fs) (stats : Stats),
      (((download_image h net url fs stats).ret = true ∧
        (download_image h net url fs stats).stats.images_downloaded =
          stats.images_downloaded + 1 ∧
        (download_image h net url fs stats).stats.images_skipped =
          stats.images_skipped ∧
        (download_image h net url fs stats).stats.images_failed =
          stats.images_failed) ∨
       ((download_image h net url fs stats).ret = true ∧
        (download_image h net url fs stats).stats.images_downloaded =
          stats.images_downloaded ∧
        (download_image h net url fs stats).stats.images_skipped =
          stats.images_skipped + 1 ∧
        (download_image h net url fs stats).stats.images_failed =
          stats.images_failed) ∨
       ((download_image h net url fs stats).ret = false ∧
        (download_image h net url fs stats).stats.images_downloaded =
          stats.images_downloaded ∧
        (download_image h net url fs stats).stats.images_skipped =
          stats.images_skipped ∧
        (download_image h net url fs stats).stats.images_failed =
          stats.images_failed + 1))) ∧
    (∀ (h : Str → Int) (net : Net) (fs : Fs) (stats : Stats),
      processTags h net [ImgTag.mk none] fs stats = (fs, stats)) ∧
    (∀ env : RunEnv,
      (runMain env).stats.images_downloaded + (runMain env).stats.images_skipped +
          (runMain env).stats.images_failed ≤
        (runMain env).stats.images_found) := by
  refine ⟨?_, ?_, ?_⟩
  · intro h net url fs stats
    exact (download_image_counter_delta h net url fs stats).2.2.2
  · intro h net fs stats
    rfl
  · intro env
    unfold runMain
    by_cases hc : env.connOk = false
    · rw [if_pos hc]
      decide
    · rw [if_neg hc]
      by_cases hf : env.folderOk = false
      · rw [if_pos hf]
        decide
      · rw [if_neg hf]
        by_cases hr : env.endPage < env.startPage
        · rw [if_pos hr]
          decide
        · rw [if_neg hr]
          exact crawlPages_inv env.h env.net env.pageResp _ [] initStats (by decide)

end Scraper
